import Mathlib

/-!
Verification of the somethin-meter firmware value-to-actuator mapping and
control loop (`src/somethin-meter-firmware.ino`).

The arithmetic of the firmware is embedded shallowly:
* C `float` values are modelled as exact rationals (`ℚ`);
* Arduino `map` works on `long` integers with C division (truncation toward
  zero), modelled by `Int.tdiv`;
* the implicit C cast `(long)(float)` truncates toward zero, modelled by
  `truncQ`.
-/

namespace SomethinMeter

/-- PWM settings from the source: `const int PWM_RANGE = 1023`. -/
def PWM_RANGE : ℤ := 1023

/-- Source constant `const int CENTER_PWM = 46` (visual center of meter). -/
def CENTER_PWM : ℤ := 46

/-- Source constant `const int MAX_PWM = 91` (visual maximum of meter). -/
def MAX_PWM : ℤ := 91

/-- Source constant `const unsigned long fetchInterval = 30000` (30 seconds). -/
def fetchInterval : ℕ := 30000

/-- C cast of a real (float) value to `long`: truncation toward zero.
For `q = num/den` with `den > 0` this is exactly `num tdiv den`. -/
def truncQ (q : ℚ) : ℤ := Int.tdiv q.num (q.den : ℤ)

/-- Arduino `map(x, in_min, in_max, out_min, out_max)`:
`(x - in_min) * (out_max - out_min) / (in_max - in_min) + out_min`
on `long`, with C division truncating toward zero. -/
def mapL (x inMin inMax outMin outMax : ℤ) : ℤ :=
  Int.tdiv ((x - inMin) * (outMax - outMin)) (inMax - inMin) + outMin

/-- Arduino `constrain(amt, low, high)`:
`(amt < low) ? low : ((amt > high) ? high : amt)`. -/
def constrain (amt low high : ℚ) : ℚ :=
  if amt < low then low else if amt > high then high else amt

/-- The integer (`long`) result of the lower-branch `map` call in
`setMeterValue` / `valueToPercentage`:
`map(value * 1000, 0, 500, 0, CENTER_PWM * 10)`. -/
def lowerP10 (value : ℚ) : ℤ :=
  mapL (truncQ (value * 1000)) 0 500 0 (CENTER_PWM * 10)

/-- The integer (`long`) result of the upper-branch `map` call:
`map((value - 0.5) * 1000, 0, 500, CENTER_PWM * 10, MAX_PWM * 10)`. -/
def upperP10 (value : ℚ) : ℤ :=
  mapL (truncQ ((value - 1/2) * 1000)) 0 500 (CENTER_PWM * 10) (MAX_PWM * 10)

/-- Lower-branch pwm percentage: the `map(...) / 10.0` expression of line 349. -/
def lowerPercentage (value : ℚ) : ℚ := (lowerP10 value : ℚ) / 10

/-- Upper-branch pwm percentage: the `map(...) / 10.0` expression of line 351. -/
def upperPercentage (value : ℚ) : ℚ := (upperP10 value : ℚ) / 10

/-- Final stage of `setMeterValue`:
`int pwmValue = map(pwmPercentage * 10, 0, 1000, 0, PWM_RANGE)`. -/
def dutyOfPercentage (pwmPercentage : ℚ) : ℤ :=
  mapL (truncQ (pwmPercentage * 10)) 0 1000 0 PWM_RANGE

/-- The internal `pwmPercentage` computed by `setMeterValue` after clamping:
lines 344-352 of the source. -/
def setMeterPwmPercentage (value : ℚ) : ℚ :=
  let v := constrain value 0 1
  if v ≤ 1/2 then lowerPercentage v else upperPercentage v

/-- The duty level `setMeterValue(value)` passes to `analogWrite(PWM_PIN, ·)`:
the whole of lines 343-356. -/
def setMeterValueDuty (value : ℚ) : ℤ :=
  dutyOfPercentage (setMeterPwmPercentage value)

/-- Source function `valueToPercentage` (lines 358-364): same two branch expressions as
`setMeterValue`, but with no `constrain` beforehand. -/
def valueToPercentage (value : ℚ) : ℚ :=
  if value ≤ 1/2 then lowerPercentage value else upperPercentage value

/-- Derived integer characterization of the pwm-percentage-times-ten value
selected by the branch of `setMeterValue` (proved equal to the source pipeline in
`setMeterValueDuty_eq`). -/
def dutyP10 (v : ℚ) : ℤ := if v ≤ 1/2 then lowerP10 v else upperP10 v

theorem truncQ_intCast (n : ℤ) : truncQ (n : ℚ) = n := by
  simp [truncQ]

theorem truncQ_eq_floor {q : ℚ} (h : 0 ≤ q) : truncQ q = ⌊q⌋ := by
  rw [truncQ, Rat.floor_def,
    Int.tdiv_eq_ediv (Rat.num_nonneg.2 h) (Int.ofNat_nonneg _)]

theorem lowerP10_eq (v : ℚ) :
    lowerP10 v = Int.tdiv (truncQ (v * 1000) * 460) 500 := by
  simp [lowerP10, mapL, CENTER_PWM]

theorem upperP10_eq (v : ℚ) :
    upperP10 v = Int.tdiv (truncQ ((v - 1/2) * 1000) * 450) 500 + 460 := by
  norm_num [upperP10, mapL, CENTER_PWM, MAX_PWM]

theorem dutyOfPercentage_div10 (n : ℤ) :
    dutyOfPercentage ((n : ℚ) / 10) = Int.tdiv (n * 1023) 1000 := by
  rw [dutyOfPercentage, div_mul_cancel₀ _ (by norm_num : (10 : ℚ) ≠ 0),
    truncQ_intCast]
  simp [mapL, PWM_RANGE]

theorem setMeterValueDuty_eq (value : ℚ) :
    setMeterValueDuty value =
      Int.tdiv (dutyP10 (constrain value 0 1) * 1023) 1000 := by
  rw [setMeterValueDuty, setMeterPwmPercentage, dutyP10]
  split
  · rw [lowerPercentage, dutyOfPercentage_div10]
  · rw [upperPercentage, dutyOfPercentage_div10]

theorem constrain_nonneg (v : ℚ) : 0 ≤ constrain v 0 1 := by
  unfold constrain; split_ifs <;> linarith

theorem constrain_le_one (v : ℚ) : constrain v 0 1 ≤ 1 := by
  unfold constrain; split_ifs <;> linarith

theorem constrain_mono {a b : ℚ} (h : a ≤ b) :
    constrain a 0 1 ≤ constrain b 0 1 := by
  unfold constrain; split_ifs <;> linarith

theorem constrain_eq_self {v : ℚ} (h0 : 0 ≤ v) (h1 : v ≤ 1) :
    constrain v 0 1 = v := by
  unfold constrain; split_ifs <;> linarith

theorem constrain_idem (v : ℚ) :
    constrain (constrain v 0 1) 0 1 = constrain v 0 1 :=
  constrain_eq_self (constrain_nonneg v) (constrain_le_one v)

theorem truncQ_nonneg {q : ℚ} (h : 0 ≤ q) : 0 ≤ truncQ q := by
  rw [truncQ_eq_floor h]; exact Int.floor_nonneg.2 h

theorem truncQ_mono {a b : ℚ} (ha : 0 ≤ a) (h : a ≤ b) :
    truncQ a ≤ truncQ b := by
  rw [truncQ_eq_floor ha, truncQ_eq_floor (le_trans ha h)]
  exact Int.floor_le_floor h

theorem truncQ_le_intCast {q : ℚ} {n : ℤ} (h0 : 0 ≤ q) (h : q ≤ (n : ℚ)) :
    truncQ q ≤ n := by
  calc truncQ q ≤ truncQ (n : ℚ) := truncQ_mono h0 h
  _ = n := truncQ_intCast n

theorem tdiv_le_tdiv {a b c : ℤ} (ha : 0 ≤ a) (h : a ≤ b) (hc : 0 < c) :
    Int.tdiv a c ≤ Int.tdiv b c := by
  rw [Int.tdiv_eq_ediv ha hc.le, Int.tdiv_eq_ediv (le_trans ha h) hc.le]
  exact Int.ediv_le_ediv hc h

theorem lowerP10_nonneg {v : ℚ} (h0 : 0 ≤ v) : 0 ≤ lowerP10 v := by
  rw [lowerP10_eq]
  exact Int.tdiv_nonneg
    (mul_nonneg (truncQ_nonneg (mul_nonneg h0 (by norm_num))) (by norm_num))
    (by norm_num)

theorem lowerP10_le {v : ℚ} (h0 : 0 ≤ v) (h : v ≤ 1/2) : lowerP10 v ≤ 460 := by
  rw [lowerP10_eq]
  have hx : truncQ (v * 1000) ≤ 500 :=
    truncQ_le_intCast (mul_nonneg h0 (by norm_num)) (by push_cast; linarith)
  calc Int.tdiv (truncQ (v * 1000) * 460) 500
      ≤ Int.tdiv (500 * 460) 500 :=
        tdiv_le_tdiv
          (mul_nonneg (truncQ_nonneg (mul_nonneg h0 (by norm_num))) (by norm_num))
          (mul_le_mul_of_nonneg_right hx (by norm_num)) (by norm_num)
  _ = 460 := by decide

theorem lowerP10_mono {a b : ℚ} (ha : 0 ≤ a) (h : a ≤ b) :
    lowerP10 a ≤ lowerP10 b := by
  rw [lowerP10_eq, lowerP10_eq]
  exact tdiv_le_tdiv
    (mul_nonneg (truncQ_nonneg (mul_nonneg ha (by norm_num))) (by norm_num))
    (mul_le_mul_of_nonneg_right
      (truncQ_mono (mul_nonneg ha (by norm_num))
        (mul_le_mul_of_nonneg_right h (by norm_num))) (by norm_num))
    (by norm_num)

theorem upperP10_ge {v : ℚ} (h : 1/2 ≤ v) : 460 ≤ upperP10 v := by
  rw [upperP10_eq]
  have : 0 ≤ Int.tdiv (truncQ ((v - 1/2) * 1000) * 450) 500 :=
    Int.tdiv_nonneg
      (mul_nonneg (truncQ_nonneg (mul_nonneg (by linarith) (by norm_num)))
        (by norm_num)) (by norm_num)
  linarith

theorem upperP10_le {v : ℚ} (h2 : 1/2 ≤ v) (h1 : v ≤ 1) : upperP10 v ≤ 910 := by
  rw [upperP10_eq]
  have hx : truncQ ((v - 1/2) * 1000) ≤ 500 :=
    truncQ_le_intCast (mul_nonneg (by linarith) (by norm_num))
      (by push_cast; linarith)
  have : Int.tdiv (truncQ ((v - 1/2) * 1000) * 450) 500 ≤ Int.tdiv (500 * 450) 500 :=
    tdiv_le_tdiv
      (mul_nonneg (truncQ_nonneg (mul_nonneg (by linarith) (by norm_num)))
        (by norm_num))
      (mul_le_mul_of_nonneg_right hx (by norm_num)) (by norm_num)
  have h450 : Int.tdiv (500 * 450) 500 = 450 := by decide
  linarith [h450 ▸ this]

theorem upperP10_mono {a b : ℚ} (ha : 1/2 ≤ a) (h : a ≤ b) :
    upperP10 a ≤ upperP10 b := by
  rw [upperP10_eq, upperP10_eq]
  have h0a : (0:ℚ) ≤ (a - 1/2) * 1000 :=
    mul_nonneg (by linarith) (by norm_num)
  have htr : truncQ ((a - 1/2) * 1000) ≤ truncQ ((b - 1/2) * 1000) :=
    truncQ_mono h0a (mul_le_mul_of_nonneg_right (by linarith) (by norm_num))
  have h1 : truncQ ((a - 1/2) * 1000) * 450 ≤ truncQ ((b - 1/2) * 1000) * 450 :=
    mul_le_mul_of_nonneg_right htr (by norm_num)
  have h2 : 0 ≤ truncQ ((a - 1/2) * 1000) * 450 :=
    mul_nonneg (truncQ_nonneg h0a) (by norm_num)
  have h3 := tdiv_le_tdiv h2 h1 (by norm_num : (0:ℤ) < 500)
  linarith

theorem dutyP10_nonneg {v : ℚ} (h0 : 0 ≤ v) : 0 ≤ dutyP10 v := by
  rw [dutyP10]; split
  · exact lowerP10_nonneg h0
  · exact le_trans (by norm_num) (upperP10_ge (not_le.mp ‹_›).le)

theorem dutyP10_le {v : ℚ} (h0 : 0 ≤ v) (h1 : v ≤ 1) : dutyP10 v ≤ 910 := by
  rw [dutyP10]; split
  · exact le_trans (lowerP10_le h0 ‹_›) (by norm_num)
  · exact upperP10_le (not_le.mp ‹_›).le h1

theorem dutyP10_mono {a b : ℚ} (h0 : 0 ≤ a) (hab : a ≤ b) :
    dutyP10 a ≤ dutyP10 b := by
  rw [dutyP10, dutyP10]
  split <;> split
  · exact lowerP10_mono h0 hab
  · exact le_trans (lowerP10_le h0 ‹_›) (upperP10_ge (not_le.mp ‹_›).le)
  · exact absurd (le_trans hab ‹_›) ‹_›
  · exact upperP10_mono (not_le.mp ‹_›).le hab

theorem setMeterValueDuty_nonneg (v : ℚ) : 0 ≤ setMeterValueDuty v := by
  rw [setMeterValueDuty_eq]
  exact Int.tdiv_nonneg
    (mul_nonneg (dutyP10_nonneg (constrain_nonneg v)) (by norm_num)) (by norm_num)

theorem setMeterValueDuty_le (v : ℚ) : setMeterValueDuty v ≤ 1023 := by
  rw [setMeterValueDuty_eq]
  have h0 : 0 ≤ dutyP10 (constrain v 0 1) * 1023 :=
    mul_nonneg (dutyP10_nonneg (constrain_nonneg v)) (by norm_num)
  have h : dutyP10 (constrain v 0 1) * 1023 ≤ 910 * 1023 :=
    mul_le_mul_of_nonneg_right
      (dutyP10_le (constrain_nonneg v) (constrain_le_one v)) (by norm_num)
  have h2 := tdiv_le_tdiv h0 h (by norm_num : (0:ℤ) < 1000)
  have h930 : Int.tdiv ((910:ℤ) * 1023) 1000 = 930 := by decide
  linarith [h930 ▸ h2]

theorem setMeterValueDuty_mono {a b : ℚ} (h : a ≤ b) :
    setMeterValueDuty a ≤ setMeterValueDuty b := by
  rw [setMeterValueDuty_eq, setMeterValueDuty_eq]
  exact tdiv_le_tdiv
    (mul_nonneg (dutyP10_nonneg (constrain_nonneg a)) (by norm_num))
    (mul_le_mul_of_nonneg_right
      (dutyP10_mono (constrain_nonneg a) (constrain_mono h))
      (by norm_num))
    (by norm_num)

/-- The mutable firmware state the claims are about: the last duty level
written with `analogWrite(PWM_PIN, ·)` plus the data-storage globals
`currentProbability`, `currentTitle`, `currentVolume` (lines 40-42). -/
structure MeterState where
  duty : ℤ
  currentProbability : ℚ
  currentTitle : String
  currentVolume : ℤ
deriving DecidableEq

/-- A deserialized JSON document as seen by the extraction code (line 215-217).
`probability = none` models a document with no numeric `probability` member;
The ArduinoJson conversion `doc[key]` to a number yields the default `0.0` in
that case (modelled in `extractProbability`).  `title` and `volume` carry the
already-extracted values of the other two members, which no claim depends
on. -/
structure JsonDoc where
  probability : Option ℚ
  title : String
  volume : ℤ
deriving DecidableEq

/-- ArduinoJson semantics of `currentProbability = doc["probability"]`:
a missing (or non-numeric) member converts to the default value `0.0`. -/
def extractProbability (doc : JsonDoc) : ℚ := doc.probability.getD 0

/-- Outcome of the blocking HTTP GET of one poll (lines 200-250):
`connectionFailed` is `httpCode <= 0`, `httpError` is a successful request
with a status other than `HTTP_CODE_OK`, `okParseError` is status 200 with a
payload `deserializeJson` rejects, and `okParsed` is status 200 with a
payload that parses to the given document. -/
inductive HttpResult
  | connectionFailed (code : ℤ)
  | httpError (code : ℤ)
  | okParseError (msg : String)
  | okParsed (doc : JsonDoc)
deriving DecidableEq

/-- Source function `fetchProbabilityData` (lines 182-255) as a transition on the stored
state, driven by the poll outcome.  Only the fully successful path (HTTP 200
and JSON parse success) assigns the globals and calls `setMeterValue`; every
other path just prints/displays an error and leaves the state alone.  The
WiFi-disconnected early return (lines 183-188) likewise changes none of this
state. -/
def fetchProbabilityData (r : HttpResult) (s : MeterState) : MeterState :=
  match r with
  | .okParsed doc =>
      let p := extractProbability doc
      { duty := setMeterValueDuty p
        currentProbability := p
        currentTitle := doc.title
        currentVolume := doc.volume }
  | _ => s

/-- C `isspace` characters, as skipped by `atof`. -/
def isSpaceC (c : Char) : Bool :=
  c = ' ' || c = '\t' || c = '\n' || c = '\r' || c = '\x0b' || c = '\x0c'

/-- Value of a digit string, most significant digit first. -/
def digitsToNat (ds : List Char) : ℕ :=
  ds.foldl (fun a c => 10 * a + (c.toNat - 48)) 0

/-- Exponent portion after `e`/`E` in `atof`: optional sign, then digits;
contributes nothing when no digit follows. -/
def parseExponent (cs : List Char) : ℤ :=
  let (sign, cs1) :=
    match cs with
    | '-' :: r => ((-1 : ℤ), r)
    | '+' :: r => ((1 : ℤ), r)
    | _ => ((1 : ℤ), cs)
  let ds := cs1.takeWhile Char.isDigit
  if ds.isEmpty then 0 else sign * (digitsToNat ds : ℤ)

/-- Model of `String::toFloat()` from the Arduino core, which returns
`float(atof(buffer))`: skip leading whitespace, parse an optional sign, a
digit string with optional fractional part, and an optional exponent; when
no conversion can be performed the result is `0.0`. -/
def atofQ (s : String) : ℚ :=
  let cs := s.data.dropWhile isSpaceC
  let (sign, cs1) :=
    match cs with
    | '-' :: r => ((-1 : ℚ), r)
    | '+' :: r => ((1 : ℚ), r)
    | _ => ((1 : ℚ), cs)
  let intDigits := cs1.takeWhile Char.isDigit
  let rest := cs1.dropWhile Char.isDigit
  let (fracDigits, rest2) :=
    match rest with
    | '.' :: r => (r.takeWhile Char.isDigit, r.dropWhile Char.isDigit)
    | _ => (([] : List Char), rest)
  if intDigits.isEmpty && fracDigits.isEmpty then 0
  else
    let mantissa : ℚ :=
      (digitsToNat intDigits : ℚ) + (digitsToNat fracDigits : ℚ) / 10 ^ fracDigits.length
    let e : ℤ :=
      match rest2 with
      | c :: r => if c = 'e' || c = 'E' then parseExponent r else 0
      | [] => 0
    sign * mantissa * 10 ^ e

/-- The serial-command branch of `loop` (lines 105-132), applied to an
already-`trim`med command line.  `"center"` maps 0.5, `"off"` writes duty 0
directly, `"fetch"` runs a poll (with outcome `r`), and anything else goes
through `command.toFloat()` and is applied iff the parsed value lies in
[0.0, 1.0]. -/
def applyCommand (command : String) (r : HttpResult) (s : MeterState) :
    MeterState :=
  if command = "center" then { s with duty := setMeterValueDuty (1/2) }
  else if command = "off" then { s with duty := 0 }
  else if command = "fetch" then fetchProbabilityData r s
  else
    let value := atofQ command
    if 0 ≤ value ∧ value ≤ 1 then { s with duty := setMeterValueDuty value }
    else s

/-- Loop-level state: the meter state plus the `lastFetch` timestamp
(line 29). -/
structure LoopState where
  meter : MeterState
  lastFetch : ℕ
deriving DecidableEq

/-- What `Serial.available()` / `readStringUntil` yield in one iteration:
nothing, or one (trimmed) command line. -/
inductive SerialInput
  | noInput
  | line (command : String)
deriving DecidableEq

/-- Width of `unsigned long` on the ESP8266: 32 bits. -/
def UL_MOD : ℕ := 2 ^ 32

/-- Unsigned 32-bit subtraction, the arithmetic of `millis() - lastFetch`. -/
def ulSub (a b : ℕ) : ℕ := (a % UL_MOD + (UL_MOD - b % UL_MOD)) % UL_MOD

/-- One iteration of `loop` (lines 99-135).  `t1` is the value of `millis()`
at the interval check, `t2` its value right after an automatic fetch
(line 102); `r` is the outcome of whichever poll this iteration performs.
The automatic-fetch branch stores `t2` into `lastFetch`; the serial branch
never touches `lastFetch`. -/
def loopIter (t1 t2 : ℕ) (r : HttpResult) (input : SerialInput)
    (s : LoopState) : LoopState :=
  let s1 :=
    if ulSub t1 s.lastFetch ≥ fetchInterval then
      { meter := fetchProbabilityData r s.meter, lastFetch := t2 }
    else s
  match input with
  | .noInput => s1
  | .line command => { s1 with meter := applyCommand command r s1.meter }

theorem setMeterValueDuty_zero : setMeterValueDuty 0 = 0 := by
  have h1 : constrain 0 0 1 = 0 := by norm_num [constrain]
  have h2 : ((0:ℚ)) * 1000 = ((0:ℤ):ℚ) := by norm_num
  rw [setMeterValueDuty_eq, h1, dutyP10, if_pos (by norm_num), lowerP10_eq, h2,
    truncQ_intCast]
  decide

theorem setMeterValueDuty_half : setMeterValueDuty (1/2) = 470 := by
  have h1 : constrain (1/2) 0 1 = 1/2 := by norm_num [constrain]
  have h2 : ((1:ℚ)/2) * 1000 = ((500:ℤ):ℚ) := by norm_num
  rw [setMeterValueDuty_eq, h1, dutyP10, if_pos (by norm_num), lowerP10_eq, h2,
    truncQ_intCast]
  decide

theorem setMeterValueDuty_one : setMeterValueDuty 1 = 930 := by
  have h1 : constrain 1 0 1 = 1 := by norm_num [constrain]
  have h2 : ((1:ℚ) - 1/2) * 1000 = ((500:ℤ):ℚ) := by norm_num
  rw [setMeterValueDuty_eq, h1, dutyP10, if_neg (by norm_num), upperP10_eq, h2,
    truncQ_intCast]
  decide

theorem lowerPercentage_half : lowerPercentage (1/2) = (CENTER_PWM : ℚ) := by
  have h2 : ((1:ℚ)/2) * 1000 = ((500:ℤ):ℚ) := by norm_num
  rw [lowerPercentage, lowerP10_eq, h2, truncQ_intCast]
  have h3 : Int.tdiv ((500:ℤ) * 460) 500 = 460 := by decide
  rw [h3]
  norm_num [CENTER_PWM]

theorem upperPercentage_half : upperPercentage (1/2) = (CENTER_PWM : ℚ) := by
  have h2 : ((1:ℚ)/2 - 1/2) * 1000 = ((0:ℤ):ℚ) := by norm_num
  rw [upperPercentage, upperP10_eq, h2, truncQ_intCast]
  have h3 : Int.tdiv ((0:ℤ) * 450) 500 = 0 := by decide
  rw [h3]
  norm_num [CENTER_PWM]

/-- Claim C1: for the fixed calibration `(CENTER_PWM, MAX_PWM, PWM_RANGE)` of
the build, the probability-to-duty mapping of `setMeterValue` is monotonically
non-decreasing: whenever `a < b`, the duty commanded for `a` is not greater
than the duty commanded for `b`. -/
theorem claim_C1_duty_monotone (a b : ℚ) (h : a < b) :
    setMeterValueDuty a ≤ setMeterValueDuty b :=
  setMeterValueDuty_mono h.le

/-- Witness for claim C1 at the concrete pair `a = 0 < b = 1`. -/
theorem claim_C1_witness :
    (0:ℚ) < 1 ∧ setMeterValueDuty 0 ≤ setMeterValueDuty 1 :=
  ⟨by norm_num, claim_C1_duty_monotone 0 1 (by norm_num)⟩

/-- Claim C2: with the reference calibration `centerDuty = 46`,
`maxDuty = 91`, `dutyRange = 1023`, the mapping yields duty 0 at input 0.0,
exactly `46 * 1023 / 100` truncated (470) at input 0.5, and exactly
`91 * 1023 / 100` truncated (930) at input 1.0. -/
theorem claim_C2_reference_points :
    setMeterValueDuty 0 = 0 ∧ setMeterValueDuty (1/2) = 470 ∧
    setMeterValueDuty 1 = 930 ∧
    (470 : ℤ) = Int.tdiv (46 * 1023) 100 ∧ (930 : ℤ) = Int.tdiv (91 * 1023) 100 :=
  ⟨setMeterValueDuty_zero, setMeterValueDuty_half, setMeterValueDuty_one,
    by decide, by decide⟩

/-- Claim C3: the two linear segments agree exactly at the breakpoint: at
input 0.5 the pwm percentage of the lower segment and the one the upper segment
would produce both equal `CENTER_PWM`, so the commanded duty is the duty
corresponding to `centerDuty` either way. -/
theorem claim_C3_breakpoint_continuity :
    dutyOfPercentage (lowerPercentage (1/2)) =
      dutyOfPercentage (upperPercentage (1/2)) ∧
    lowerPercentage (1/2) = (CENTER_PWM : ℚ) ∧
    upperPercentage (1/2) = (CENTER_PWM : ℚ) := by
  refine ⟨?_, lowerPercentage_half, upperPercentage_half⟩
  rw [lowerPercentage_half, upperPercentage_half]

/-- Claim C4: clamp law — for every input `v`, including negative inputs and
inputs above 1, `setMeterValue` commands the same duty as it does for
`clamp(v, 0, 1)`; out-of-range inputs are clamped before mapping. -/
theorem claim_C4_clamp_law (v : ℚ) :
    setMeterValueDuty v = setMeterValueDuty (constrain v 0 1) := by
  rw [setMeterValueDuty_eq, setMeterValueDuty_eq, constrain_idem]

/-- Claim C5: for every input, the duty level `setMeterValue` passes to
`analogWrite` is an integer in the closed range `[0, PWM_RANGE]` = [0, 1023]. -/
theorem claim_C5_duty_range (v : ℚ) :
    0 ≤ setMeterValueDuty v ∧ setMeterValueDuty v ≤ 1023 :=
  ⟨setMeterValueDuty_nonneg v, setMeterValueDuty_le v⟩

/-- Claim C6: a poll whose HTTP request returns a non-success status, fails
to connect, or whose payload fails JSON parsing performs no actuation: the
last commanded duty after the failed poll equals the duty before it. -/
theorem claim_C6_failed_poll_keeps_duty (code : ℤ) (msg : String)
    (s : MeterState) :
    (fetchProbabilityData (HttpResult.httpError code) s).duty = s.duty ∧
    (fetchProbabilityData (HttpResult.okParseError msg) s).duty = s.duty ∧
    (fetchProbabilityData (HttpResult.connectionFailed code) s).duty = s.duty :=
  ⟨rfl, rfl, rfl⟩

/-- Claim C9: a successful poll whose payload parses as valid JSON but has no
numeric `probability` member defaults the probability to 0.0 and actuates the
meter to duty 0; the previous actuator state is not retained. -/
theorem claim_C9_missing_probability_zero (s : MeterState) (doc : JsonDoc)
    (h : doc.probability = none) :
    (fetchProbabilityData (HttpResult.okParsed doc) s).currentProbability = 0 ∧
    (fetchProbabilityData (HttpResult.okParsed doc) s).duty = 0 := by
  simp [fetchProbabilityData, extractProbability, h, setMeterValueDuty_zero]

/-- Witness for claim C9: a concrete document without a `probability` member,
applied to a state previously at duty 470. -/
theorem claim_C9_witness :
    (⟨none, "x", 7⟩ : JsonDoc).probability = none ∧
    ((fetchProbabilityData (HttpResult.okParsed ⟨none, "x", 7⟩)
        ⟨470, 1/2, "t", 3⟩).currentProbability = 0 ∧
      (fetchProbabilityData (HttpResult.okParsed ⟨none, "x", 7⟩)
        ⟨470, 1/2, "t", 3⟩).duty = 0) :=
  ⟨rfl, claim_C9_missing_probability_zero ⟨470, 1/2, "t", 3⟩ ⟨none, "x", 7⟩ rfl⟩

/-- Claim C7 (code bug evidence): the unrecognized serial command `"abc"` is
not rejected — `String::toFloat` parses it as 0.0, which passes the
`0.0 <= value <= 1.0` check, so the handler actuates the meter to duty 0,
changing the commanded duty (here from 470 to 0). -/
theorem claim_C7_unrecognized_text_actuates :
    atofQ "abc" = 0 ∧
    (applyCommand "abc" (HttpResult.httpError 500) ⟨470, 1/2, "", 0⟩).duty = 0 ∧
    (⟨470, 1/2, "", 0⟩ : MeterState).duty = 470 := by
  have ha : atofQ "abc" = 0 := by decide
  refine ⟨ha, ?_, rfl⟩
  rw [applyCommand, if_neg (by decide : ¬ ("abc" = "center")),
    if_neg (by decide : ¬ ("abc" = "off")), if_neg (by decide : ¬ ("abc" = "fetch"))]
  simp only [ha]
  norm_num [setMeterValueDuty_zero]

/-- Counterexample to claim C8 as stated: in an iteration at `millis() = 2000`
whose only fetch is the manual `"fetch"` command (the interval timer, last
reset at 1000, has not expired), `lastFetch` stays 1000 instead of being
reset to 2000 — the manual fetch does not reset the poll timer. -/
theorem claim_C8_manual_fetch_no_reset :
    (loopIter 2000 2000 (HttpResult.httpError 500) (SerialInput.line "fetch")
        ⟨⟨470, 1/2, "", 0⟩, 1000⟩).lastFetch = 1000 ∧
    ¬ (loopIter 2000 2000 (HttpResult.httpError 500) (SerialInput.line "fetch")
        ⟨⟨470, 1/2, "", 0⟩, 1000⟩).lastFetch = 2000 := by
  constructor
  · decide
  · decide

/-- Claim C8, amended: the automatic poll branch of `loop` resets `lastFetch`
to the current `millis()` after every automatic fetch attempt, whatever the
poll outcome (success or failure); but a serial command — including manual
`"fetch"` — never changes `lastFetch`, so the next automatic poll is not
postponed by a manual fetch. -/
theorem claim_C8_lastFetch_reset_amended :
    (∀ (t1 t2 : ℕ) (r : HttpResult) (s : LoopState),
        ulSub t1 s.lastFetch ≥ fetchInterval →
        (loopIter t1 t2 r SerialInput.noInput s).lastFetch = t2) ∧
    (∀ (t1 t2 : ℕ) (r : HttpResult) (command : String) (s : LoopState),
        ulSub t1 s.lastFetch < fetchInterval →
        (loopIter t1 t2 r (SerialInput.line command) s).lastFetch =
          s.lastFetch) := by
  constructor
  · intro t1 t2 r s h
    rw [loopIter]
    simp only [if_pos h]
  · intro t1 t2 r command s h
    rw [loopIter]
    simp only [if_neg (not_le.mpr h)]

/-- Witness for the amended claim C8: an expired timer with a failed poll
resets `lastFetch` to the new `millis()`; an unexpired timer with a manual
`"fetch"` leaves `lastFetch` untouched. -/
theorem claim_C8_witness :
    (ulSub 40000 (⟨⟨470, 1/2, "", 0⟩, 0⟩ : LoopState).lastFetch ≥ fetchInterval ∧
      (loopIter 40000 40001 (HttpResult.httpError 500) SerialInput.noInput
        ⟨⟨470, 1/2, "", 0⟩, 0⟩).lastFetch = 40001) ∧
    (ulSub 2000 (⟨⟨470, 1/2, "", 0⟩, 1000⟩ : LoopState).lastFetch < fetchInterval ∧
      (loopIter 2000 2000 (HttpResult.httpError 500) (SerialInput.line "fetch")
        ⟨⟨470, 1/2, "", 0⟩, 1000⟩).lastFetch = 1000) :=
  ⟨⟨by decide,
      claim_C8_lastFetch_reset_amended.1 40000 40001 (HttpResult.httpError 500)
        ⟨⟨470, 1/2, "", 0⟩, 0⟩ (by decide)⟩,
    ⟨by decide,
      claim_C8_lastFetch_reset_amended.2 2000 2000 (HttpResult.httpError 500)
        "fetch" ⟨⟨470, 1/2, "", 0⟩, 1000⟩ (by decide)⟩⟩

/-- Claim C10: on [0.0, 1.0] the percentage returned by `valueToPercentage`
equals the internal `pwmPercentage` computed by `setMeterValue`, so the
commanded duty is the final-stage `map` of `valueToPercentage(v) * 10` from
0..1000 onto 0..`PWM_RANGE`; since `valueToPercentage` performs no clamping,
this is stated only for inputs in [0.0, 1.0]. -/
theorem claim_C10_percentage_refinement (v : ℚ) (h0 : 0 ≤ v) (h1 : v ≤ 1) :
    valueToPercentage v = setMeterPwmPercentage v ∧
    setMeterValueDuty v =
      mapL (truncQ (valueToPercentage v * 10)) 0 1000 0 PWM_RANGE := by
  have hc : constrain v 0 1 = v := constrain_eq_self h0 h1
  have hp : setMeterPwmPercentage v = valueToPercentage v := by
    simp only [setMeterPwmPercentage, valueToPercentage, hc]
  exact ⟨hp.symm, by rw [setMeterValueDuty, hp, dutyOfPercentage]⟩

/-- Witness for claim C10 at the concrete input `v = 1/4`. -/
theorem claim_C10_witness :
    (0:ℚ) ≤ 1/4 ∧ (1/4:ℚ) ≤ 1 ∧
    (valueToPercentage (1/4) = setMeterPwmPercentage (1/4) ∧
      setMeterValueDuty (1/4) =
        mapL (truncQ (valueToPercentage (1/4) * 10)) 0 1000 0 PWM_RANGE) :=
  ⟨by norm_num, by norm_num,
    claim_C10_percentage_refinement (1/4) (by norm_num) (by norm_num)⟩

end SomethinMeter
